import Mathlib

/-!
Verification development for the Android Docker provider of the cua repository.

The definitions below shallowly embed:
  * `provider.py` (`AndroidDockerProvider`): the container lifecycle controller
    (`run_vm`), the boot-readiness polling loop (`_wait_for_adb_ready`), the
    environment setup step (`_setup_android_environment`) and the direct
    ADB action surface (`home`, `tap`, `type_text`, ...);
  * `android_bridge.py` (`AndroidBridge.handle_message`): the in-container
    command bridge server;
  * `bridge_server.py` (the host-side FastAPI bridge variant's websocket
    handler).

External effects (docker commands, the adb subprocess, time) are passed in as
oracle functions or observation lists; the Python code is otherwise translated
operation by operation.  Python string operations are modelled on `List Char`
(the sources only split on single-character separators).
-/

/-! ## Character-list models of the Python string operations used -/

/-- `headMatches pat s` is true when `pat` is an initial segment of `s`. -/
def headMatches : List Char → List Char → Bool
  | [], _ => true
  | _ :: _, [] => false
  | a :: as, b :: bs => a == b && headMatches as bs

/-- `hasSub pat s`: some suffix of `s` starts with `pat`. -/
def hasSub (pat : List Char) : List Char → Bool
  | [] => headMatches pat []
  | c :: rest => headMatches pat (c :: rest) || hasSub pat rest

/-- Python substring test `pat in s`. -/
def containsSub (pat s : String) : Bool := hasSub pat.toList s.toList

/-- Python `str.split(sep)` for a one-character separator: separators delimit
fields, empty fields included, `split` of the empty string is `[""]`. -/
def splitChar (sep : Char) : List Char → List (List Char)
  | [] => [[]]
  | c :: rest =>
    match splitChar sep rest with
    | [] => [[]]
    | h :: t => if c = sep then [] :: h :: t else (c :: h) :: t

def isSpaceChar (c : Char) : Bool := c == ' ' || c == '\t' || c == '\n' || c == '\r'

/-- Python `str.strip()`: whitespace removed from both ends. -/
def stripChars (l : List Char) : List Char :=
  ((l.dropWhile isSpaceChar).reverse.dropWhile isSpaceChar).reverse

/-! ## The type-text escaping (provider.type_text and the bridge type branch) -/

def squote : Char := Char.ofNat 39
def dquote : Char := Char.ofNat 34
def bslash : Char := Char.ofNat 92

/-- Python single-character `str.replace`: every occurrence of the character
`c` is replaced by the sequence `r` (the sources only replace one-character
patterns, so the general substring replace specialises to this). -/
def replaceChar (c : Char) (r : List Char) : List Char → List Char
  | [] => []
  | x :: xs => if x = c then r ++ replaceChar c r xs else x :: replaceChar c r xs

/-- `provider.py` `type_text` escaping chain:
`text.replace(space, percent-s).replace(single-quote, backslash single-quote)
.replace(double-quote, backslash double-quote).replace(ampersand, backslash
ampersand)`. -/
def providerEscape (t : List Char) : List Char :=
  replaceChar '&' [bslash, '&']
    (replaceChar dquote [bslash, dquote]
      (replaceChar squote [bslash, squote]
        (replaceChar ' ' ['%', 's'] t)))

/-- `android_bridge.py` type branch escaping chain: the same three first steps,
without the ampersand step. -/
def bridgeEscape (t : List Char) : List Char :=
  replaceChar dquote [bslash, dquote]
    (replaceChar squote [bslash, squote]
      (replaceChar ' ' ['%', 's'] t))

/-- Per-character description of `providerEscape` (proved equal to it below). -/
def escP (c : Char) : List Char :=
  if c = ' ' then ['%', 's']
  else if c = squote then [bslash, squote]
  else if c = dquote then [bslash, dquote]
  else if c = '&' then [bslash, '&']
  else [c]

/-- Per-character description of `bridgeEscape` (proved equal to it below). -/
def escB (c : Char) : List Char :=
  if c = ' ' then ['%', 's']
  else if c = squote then [bslash, squote]
  else if c = dquote then [bslash, dquote]
  else [c]

def isQuoteChar (c : Char) : Bool := c == squote || c == dquote

/-- Scanning with the previous character at hand: every quote character must be
immediately preceded by a backslash. -/
def quotesEscapedFrom (prev : Char) : List Char → Bool
  | [] => true
  | c :: rest => (!(isQuoteChar c) || prev == bslash) && quotesEscapedFrom c rest

/-- No unescaped quote: every single- or double-quote character in the list is
immediately preceded by a backslash (in particular the list does not start with
a quote). -/
def noUnescapedQuote (l : List Char) : Bool := quotesEscapedFrom ' ' l

/-! ## The provider's direct ADB action surface

`execute_adb_command` runs `docker exec <container> adb <args>` via an oracle
for `subprocess.run(..., capture_output=True, text=True)` and returns
`result.stdout` whatever the exit status is (a nonzero status is only logged).
Each action then derives its boolean result by scanning that text. -/

structure AdbResult where
  returncode : Int
  stdout : String
  stderr : String
deriving Repr, DecidableEq

/-- Oracle: one external command execution with captured output. -/
def DockerExec := List String → AdbResult

def execute_adb_command (o : DockerExec) (cn : String) (command : List String) : String :=
  (o (["docker", "exec", cn, "adb"] ++ command)).stdout

def homeArgs : List String := ["shell", "input", "keyevent", "3"]

def backArgs : List String := ["shell", "input", "keyevent", "4"]

/-- `tap` builds its command by `str()`-rendering the coordinates directly. -/
def tapArgs (x y : Int) : List String :=
  ["shell", "input", "tap", toString x, toString y]

def swipeArgs (x1 y1 x2 y2 duration_ms : Int) : List String :=
  ["shell", "input", "swipe", toString x1, toString y1, toString x2, toString y2,
   toString duration_ms]

def keyEventArgs (keycode : Int) : List String :=
  ["shell", "input", "keyevent", toString keycode]

def typeTextArgs (text : String) : List String :=
  ["shell", "input", "text", String.mk (providerEscape text.toList)]

def clearAppDataArgs (package : String) : List String := ["shell", "pm", "clear", package]

def openAppArgs (package : String) : List String :=
  ["shell", "monkey", "-p", package, "-c", "android.intent.category.LAUNCHER", "1"]

def provider_home (o : DockerExec) (cn : String) : Bool :=
  !(containsSub "Error" (execute_adb_command o cn homeArgs))

def provider_back (o : DockerExec) (cn : String) : Bool :=
  !(containsSub "Error" (execute_adb_command o cn backArgs))

def provider_tap (o : DockerExec) (cn : String) (x y : Int) : Bool :=
  !(containsSub "Error" (execute_adb_command o cn (tapArgs x y)))

def provider_swipe (o : DockerExec) (cn : String) (x1 y1 x2 y2 d : Int) : Bool :=
  !(containsSub "Error" (execute_adb_command o cn (swipeArgs x1 y1 x2 y2 d)))

def provider_key_event (o : DockerExec) (cn : String) (k : Int) : Bool :=
  !(containsSub "Error" (execute_adb_command o cn (keyEventArgs k)))

def provider_type_text (o : DockerExec) (cn : String) (t : String) : Bool :=
  !(containsSub "Error" (execute_adb_command o cn (typeTextArgs t)))

def provider_clear_app_data (o : DockerExec) (cn : String) (p : String) : Bool :=
  containsSub "Success" (execute_adb_command o cn (clearAppDataArgs p))

def provider_open_app (o : DockerExec) (cn : String) (p : String) : Bool :=
  !(containsSub "Error" (execute_adb_command o cn (openAppArgs p))) &&
  !(containsSub "Exception" (execute_adb_command o cn (openAppArgs p)))

/-! ## Boot-readiness polling (`_wait_for_adb_ready`)

Each `Poll` is what one iteration of the main polling loop observes: the result
of `docker exec <name> adb devices` (an exception, or captured output), and the
result of the `getprop sys.boot_completed` probe that would be issued if a
device is found in this iteration.  Wall-clock time is abstracted: the list of
polls is the sequence of observations the loop gets to make before the overall
budget (default 120 time-units at 2 per iteration) runs out; an exhausted list
is the timeout. -/

structure Poll where
  devices : Except String AdbResult
  boot : AdbResult

/-- The `for line in lines[1:]` scan: skip lines that strip to nothing or hold
no tab; unpack `device, status` (more than two tab-fields raises `ValueError`,
which the enclosing `except` swallows); status `device` means ready, any other
status (`offline`, `unauthorized`, ...) just keeps polling. -/
def scanDeviceLines : List (List Char) → Except String Bool
  | [] => .ok false
  | line :: rest =>
    if !(stripChars line).isEmpty && line.any (fun c => c == '\t') then
      match splitChar '\t' (stripChars line) with
      | [_, s] => if s = "device".toList then .ok true else scanDeviceLines rest
      | _ => .error "ValueError"
    else scanDeviceLines rest

structure PollStep where
  ready : Bool
  bootQueried : Option AdbResult
deriving DecidableEq

/-- One iteration of the polling loop.  On a `device` status the code sleeps
5 time-units, queries `sys.boot_completed`, only logs what that flag reports,
and returns ready; the flag's value never changes the outcome.  Exceptions and
nonzero exit statuses are swallowed and polling continues. -/
def pollStep (p : Poll) : PollStep :=
  match p.devices with
  | .error _ => { ready := false, bootQueried := none }
  | .ok r =>
    if r.returncode = 0 then
      match scanDeviceLines ((splitChar '\n' (stripChars r.stdout.toList)).drop 1) with
      | .ok true => { ready := true, bootQueried := some p.boot }
      | .ok false => { ready := false, bootQueried := none }
      | .error _ => { ready := false, bootQueried := none }
    else { ready := false, bootQueried := none }

/-- `_wait_for_adb_ready`: poll until a ready device is seen; an exhausted
observation budget is the timeout and yields `false` (the source logs a warning
and returns `False`). -/
def waitForAdbReady : List Poll → Bool
  | [] => false
  | p :: rest => if (pollStep p).ready then true else waitForAdbReady rest

structure SetupResult where
  android_ready : Bool
  adb_ready : Bool
deriving DecidableEq, Repr

/-- `_setup_android_environment`: awaits `_wait_for_adb_ready` but discards its
boolean result (recorded here in the `adb_ready` field for observation), then
runs the best-effort `_install_computer_server` step, then unconditionally sets
`self._android_ready = True`. -/
def setupAndroidEnvironment (polls : List Poll) (_installOk : Bool) : SetupResult :=
  let r := waitForAdbReady polls
  { android_ready := true, adb_ready := r }

/-! ## The container lifecycle controller (`run_vm`)

The docker engine and the parent Docker provider are reached through oracle
fields of `Env`.  `get_vm` and `_wait_for_container_ready` are inherited from
the parent provider, whose file is not among these sources. -/

inductive VMStatus
  | running
  | stopped
  | paused
deriving DecidableEq, Repr

/-- The dictionary `run_vm` returns, restricted to the fields the provider
itself reads or writes. -/
structure VMInfo where
  name : String
  status : String
  error : Option String := none
  provider : Option String := none
  container_id : Option String := none
deriving DecidableEq, Repr

/-- Constructor arguments of `AndroidDockerProvider` used by `run_vm`
(`api_port` is the constructor's `port`). -/
structure Cfg where
  api_port : Nat
  vnc_port : Nat
  adb_port : Nat
deriving DecidableEq, Repr

/-- The external world as `run_vm` sees it: the engine's container table, the
`is_port_free` probe, the `docker run` / `docker start` outcomes, and the
observations available to the readiness wait.  `dockerRun` is keyed by the
negotiated host-to-container port bindings; the rest of the creation command
(resource limits, environment variables, image) does not influence the port
outcome and is absorbed into the oracle. -/
structure Env where
  vms : String → Option VMStatus
  free : Nat → Bool
  dockerRun : List (Nat × Nat) → Except String String
  dockerStart : String → Except String Unit
  containerReady : Except String Unit
  polls : List Poll
  installOk : Bool

def statusStr : Option VMStatus → String
  | some .running => "running"
  | some .stopped => "stopped"
  | some .paused => "paused"
  | none => "not_found"

/-- Modelled from the spec: `get_vm` is inherited from the parent Docker
provider (not among these sources); per the spec it reports the environment
with `spec.name` and its current lifecycle state. -/
def get_vm (env : Env) (name : String) : VMInfo :=
  { name := name, status := statusStr (env.vms name) }

def updateVms (env : Env) (name : String) (s : VMStatus) : Env :=
  { env with vms := fun n => if n = name then some s else env.vms n }

/-- The port negotiation inside `run_vm`: each optional mapping (web VNC, ADB,
emulator console 5554, alternate VNC 5900) is included only when
`is_port_free` succeeds on the desired host port; the API port mapping
`api_port -> 8000` is appended unconditionally, with no probe. -/
def portMappings (cfg : Cfg) (free : Nat → Bool) : List (Nat × Nat) :=
  (if free cfg.vnc_port then [(cfg.vnc_port, 6080)] else []) ++
  (if free cfg.adb_port then [(cfg.adb_port, 5555)] else []) ++
  [(cfg.api_port, 8000)] ++
  (if free 5554 then [(5554, 5554)] else []) ++
  (if free 5900 then [(5900, 5900)] else [])

/-- The warnings logged for each skipped optional mapping. -/
def portWarnings (cfg : Cfg) (free : Nat → Bool) : List String :=
  (if free cfg.vnc_port then []
   else ["Port " ++ toString cfg.vnc_port ++ " in use, skipping VNC port mapping"]) ++
  (if free cfg.adb_port then []
   else ["Port " ++ toString cfg.adb_port ++ " in use, skipping ADB port mapping"]) ++
  (if free 5554 then [] else ["Port 5554 in use, skipping emulator console port"]) ++
  (if free 5900 then [] else ["Port 5900 in use, skipping VNC port"])

/-- Observable outcome of one `run_vm` call: the returned dictionary plus a
trace of what the call did (the negotiated plan and warnings on the creation
path, whether `docker run` was invoked, the `_running_containers` registration,
and the setup step's outcome). -/
structure RunOutcome where
  vm : VMInfo
  plan : Option (List (Nat × Nat)) := none
  warnings : List String := []
  createdNew : Bool := false
  registered : Option String := none
  setup : Option SetupResult := none
deriving DecidableEq

def errorVM (name msg : String) : VMInfo :=
  { name := name, status := "error",
    error := some ("Error running Android VM " ++ name ++ ": " ++ msg),
    provider := some "android" }

/-- The body of `run_vm` inside its `try`: reuse a running container, restart a
stopped or paused one in place (`docker start`), otherwise negotiate ports and
create a new container.  Raised exceptions are returned as `.error` together
with the engine state at the raise point. -/
def run_vm_try (env : Env) (cfg : Cfg) (name : String) : Except (String × Env) (RunOutcome × Env) :=
  let existing := get_vm env name
  if existing.status = "running" then
    let su := setupAndroidEnvironment env.polls env.installOk
    .ok ({ vm := existing, setup := some su }, env)
  else if existing.status = "stopped" ∨ existing.status = "paused" then
    match env.dockerStart name with
    | .error e => .error (e, env)
    | .ok _ =>
      match env.containerReady with
      | .error e => .error (e, updateVms env name .running)
      | .ok _ =>
        let env' := updateVms env name .running
        let su := setupAndroidEnvironment env.polls env.installOk
        .ok ({ vm := get_vm env' name, setup := some su }, env')
  else
    let plan := portMappings cfg env.free
    let warnings := portWarnings cfg env.free
    match env.dockerRun plan with
    | .error stderr => .error ("Failed to start container: " ++ stderr, env)
    | .ok cid =>
      let env' := updateVms env name .running
      match env'.containerReady with
      | .error e => .error (e, env')
      | .ok _ =>
        let su := setupAndroidEnvironment env.polls env.installOk
        let vmi := { get_vm env' name with container_id := some (cid.take 12) }
        .ok ({ vm := vmi, plan := some plan, warnings := warnings, createdNew := true,
               registered := some cid, setup := some su }, env')

/-- `run_vm`: the whole body runs under `try`/`except Exception`; any raised
exception is caught and turned into the error dictionary
`\x7b"name": name, "status": "error", "error": msg, "provider": "android"\x7d`. -/
def run_vm (env : Env) (cfg : Cfg) (name : String) : RunOutcome × Env :=
  match run_vm_try env cfg name with
  | .ok r => r
  | .error (e, envE) => ({ vm := errorVM name e }, envE)

/-! ## JSON-ish values and the command bridge servers

`android_bridge.py` decodes each websocket message with `json.loads` and works
on the resulting loosely-typed data.  `JVal` is that value universe; an object
is an association list of string keys (the requests the SDK sends have no
duplicate keys). -/

inductive JVal where
  | jnull
  | jbool (b : Bool)
  | jint (n : Int)
  | jstr (s : String)
  | jlist (l : List JVal)
  | jobj (o : List (String × JVal))

/-- A decoded JSON object. -/
abbrev Obj := List (String × JVal)

def jget? (o : Obj) (k : String) : Option JVal :=
  match o with
  | [] => none
  | (k', v) :: rest => if k' = k then some v else jget? rest k

/-- Python `dict.get(k)`: the value when the key is present, else `None`. -/
def jget (o : Obj) (k : String) : JVal := (jget? o k).getD .jnull

/-- Python `dict.get(k, d)`: key-presence decides, not truthiness. -/
def jgetD (o : Obj) (k : String) (d : JVal) : JVal := (jget? o k).getD d

/-- Python truthiness on these values. -/
def truthy : JVal → Bool
  | .jnull => false
  | .jbool b => b
  | .jint n => n != 0
  | .jstr s => !(s == "")
  | .jlist l => !l.isEmpty
  | .jobj o => !o.isEmpty

/-- Python `a or b`: `a` when truthy, otherwise `b`. -/
def pyOr (a b : JVal) : JVal := if truthy a then a else b

/-- Python `v == "s"` / `v in [list of string literals]` membership test:
true only when `v` is that string. -/
def jeqStr (v : JVal) (s : String) : Bool :=
  match v with
  | .jstr t => t == s
  | _ => false

mutual
/-- Python `str()` on these values (composite renderings follow `repr` of the
elements; no claim evaluates `str` on an object). -/
def pyStr : JVal → String
  | .jnull => "None"
  | .jbool b => if b then "True" else "False"
  | .jint n => toString n
  | .jstr s => s
  | .jlist l => "[" ++ pyReprSeq l ++ "]"
  | .jobj _ => "\x7b...\x7d"

def pyReprSeq : List JVal → String
  | [] => ""
  | [v] => pyRepr v
  | v :: rest => pyRepr v ++ ", " ++ pyReprSeq rest

def pyRepr : JVal → String
  | .jstr s => String.mk (squote :: (s.toList ++ [squote]))
  | v => pyStr v
end

/-- Python subscripting `v[i]`: lists and strings index, anything else is a
`TypeError`; an out-of-range index is an `IndexError`. -/
def jindex : JVal → Nat → Except String JVal
  | .jlist l, i =>
    match l.get? i with
    | some v => .ok v
    | none => .error "IndexError"
  | .jstr s, i =>
    match s.toList.get? i with
    | some c => .ok (.jstr (String.mk [c]))
    | none => .error "IndexError"
  | _, _ => .error "TypeError: not subscriptable"

/-- Python attribute call `v.get(k)`: only dictionaries have `.get`. -/
def jmethGet (v : JVal) (k : String) : Except String JVal :=
  match v with
  | .jobj o => .ok (jget o k)
  | _ => .error "AttributeError: get"

/-- The click branch's coordinate resolution, exactly as written:
`params.get(key) or data.get(key, data.get("coordinate", [0, 0])[i])`.
Python `or` short-circuits: the legacy fallback expression is only evaluated
when the `params` value is falsy. -/
def resolveCoord (data : Obj) (params : JVal) (key : String) (i : Nat) :
    Except String JVal := do
  let p ← jmethGet params key
  if truthy p then
    pure p
  else do
    let fb ← jindex (jgetD data "coordinate" (.jlist [.jint 0, .jint 0])) i
    pure (jgetD data key fb)

/-- The key-name-to-keycode map of the bridge's key branch. -/
def keyMap : String → Option String
  | "Return" => some "66"
  | "Enter" => some "66"
  | "BackSpace" => some "67"
  | "Delete" => some "67"
  | "Tab" => some "61"
  | "Escape" => some "111"
  | "Home" => some "3"
  | "Back" => some "4"
  | _ => none

def digitsToNat (ds : List Char) : Nat := ds.foldl (fun a c => a * 10 + (c.toNat - 48)) 0

/-- Python `int(str)`: surrounding whitespace allowed, optional sign, at least
one digit, else `ValueError`. -/
def pyInt (s : String) : Except String Int :=
  let t := stripChars s.toList
  let sd : Bool × List Char :=
    match t with
    | c :: rest => if c = '-' then (true, rest) else if c = '+' then (false, rest) else (false, t)
    | [] => (false, t)
  if !sd.2.isEmpty && sd.2.all Char.isDigit then
    .ok (if sd.1 then -(digitsToNat sd.2 : Int) else (digitsToNat sd.2 : Int))
  else .error ("ValueError: invalid literal for int: " ++ s)

/-- Oracle for one in-container `adb` invocation: captured result, or a raised
exception (e.g. the 10-second subprocess timeout). -/
def BridgeAdb := List String → Except String AdbResult

structure ExecOut where
  success : Bool
  output : String
  raw : String

/-- `AndroidBridge.execute_adb`: prepend `adb -s emulator-5554`, run with a
timeout; success is `returncode == 0`; any exception is caught and returned as
`(False, str(e), empty bytes)`. -/
def execute_adb (adb : BridgeAdb) (command : List String) : ExecOut :=
  match adb (["adb", "-s", "emulator-5554"] ++ command) with
  | .ok r => { success := r.returncode == 0, output := r.stdout, raw := r.stdout }
  | .error e => { success := false, output := e, raw := "" }

/-- The transport encoding of screenshot bytes (`base64.b64encode(...)`): kept
as the identity presentation of the byte payload; no claim depends on the
encoding itself. -/
def base64ascii (s : String) : String := s

def errObj (e : String) : Obj := [("success", .jbool false), ("error", .jstr e)]

/-- `action = data.get("command") or data.get("action") or data.get("type")`. -/
def resolveAction (data : Obj) : JVal :=
  pyOr (jget data "command") (pyOr (jget data "action") (jget data "type"))

/-- The dispatch chain of `AndroidBridge.handle_message`, inside its `try`:
each branch builds exactly one response object; a raised exception is returned
as `.error` (exception message texts abbreviated). -/
def handleBody (data : Obj) (adb : BridgeAdb) : Except String Obj := do
  let action := resolveAction data
  let params := jgetD data "params" (.jobj [])
  if jeqStr action "screenshot" || jeqStr action "take_screenshot" then
    let r := execute_adb adb ["shell", "screencap", "-p"]
    if r.success && !(r.raw == "") then
      pure [("success", .jbool true), ("action", .jstr "screenshot"),
            ("image", .jstr (base64ascii r.raw)), ("format", .jstr "png")]
    else
      pure [("success", .jbool false), ("error", .jstr "Screenshot failed")]
  else if jeqStr action "click" || jeqStr action "left_click" || jeqStr action "tap" then
    let x ← resolveCoord data params "x" 0
    let y ← resolveCoord data params "y" 1
    let r := execute_adb adb ["shell", "input", "tap", pyStr x, pyStr y]
    pure [("success", .jbool r.success), ("action", .jstr "click"), ("x", x), ("y", y)]
  else if jeqStr action "type" || jeqStr action "type_text" then
    match jgetD data "text" (.jstr "") with
    | .jstr s =>
      let escaped := String.mk (bridgeEscape s.toList)
      let r := execute_adb adb ["shell", "input", "text", escaped]
      pure [("success", .jbool r.success), ("action", .jstr "type"), ("text", .jstr s)]
    | _ => .error "AttributeError: replace"
  else if jeqStr action "key" then
    match jgetD data "key" (.jstr "") with
    | .jstr k =>
      let keycode := (keyMap k).getD k
      let r := execute_adb adb ["shell", "input", "keyevent", keycode]
      pure [("success", .jbool r.success), ("action", .jstr "key"), ("key", .jstr k)]
    | v =>
      pure [("success", .jbool false), ("action", .jstr "key"), ("key", v)]
  else if jeqStr action "drag" || jeqStr action "swipe" then
    let x1 := jgetD data "start_x" (jgetD data "from_x" (.jint 0))
    let y1 := jgetD data "start_y" (jgetD data "from_y" (.jint 0))
    let x2 := jgetD data "end_x" (jgetD data "to_x" (.jint 0))
    let y2 := jgetD data "end_y" (jgetD data "to_y" (.jint 0))
    let dur := jgetD data "duration" (.jint 300)
    let r := execute_adb adb
      ["shell", "input", "swipe", pyStr x1, pyStr y1, pyStr x2, pyStr y2, pyStr dur]
    pure [("success", .jbool r.success), ("action", .jstr "swipe")]
  else if jeqStr action "get_screen_size" then
    let r := execute_adb adb ["shell", "wm", "size"]
    if r.success && containsSub "x" r.output then
      let sizeStr := stripChars ((splitChar ':' r.output.toList).getLastD [])
      match splitChar 'x' sizeStr with
      | [ws, hs] => do
        let w ← pyInt (String.mk ws)
        let h ← pyInt (String.mk hs)
        pure [("success", .jbool true),
              ("size", .jobj [("width", .jint w), ("height", .jint h)])]
      | _ => .error "ValueError: unpack"
    else
      pure [("success", .jbool false), ("error", .jstr "Could not get screen size")]
  else if jeqStr action "version" then
    pure [("success", .jbool true), ("version", .jstr "1.0.0"), ("platform", .jstr "android")]
  else
    pure [("success", .jbool true), ("action", action), ("status", .jstr "ok")]

/-- `AndroidBridge.handle_message`: decode (an undecodable message is a raised
`json.JSONDecodeError`), dispatch, send exactly one response; the outer
`except` turns any raised exception into
`\x7b"success": False, "error": str(e)\x7d`. -/
def handleMessage (msg : Except String Obj) (adb : BridgeAdb) : Obj :=
  match msg with
  | .error e => errObj e
  | .ok data =>
    match handleBody data adb with
    | .ok resp => resp
    | .error e => errObj e

/-- The action identifiers the `handle_message` dispatch recognises. -/
def knownAction (a : JVal) : Bool :=
  jeqStr a "screenshot" || jeqStr a "take_screenshot" || jeqStr a "click" ||
  jeqStr a "left_click" || jeqStr a "tap" || jeqStr a "type" || jeqStr a "type_text" ||
  jeqStr a "key" || jeqStr a "drag" || jeqStr a "swipe" || jeqStr a "get_screen_size" ||
  jeqStr a "version"

/-- One loop iteration of `bridge_server.py`'s `websocket_endpoint`: the action
is read from the single key `"action"`; the device commands of the click, type,
swipe and key branches are fire-and-forget (their results are discarded by the
source and do not influence the response), so only the screenshot outcome is an
input. -/
def bridgeServerRespond (shot : Option String) (data : Obj) : Obj :=
  let action := jget data "action"
  if jeqStr action "screenshot" then
    match shot with
    | some s => [("success", .jbool true), ("screenshot", .jstr s)]
    | none => [("success", .jbool false)]
  else if jeqStr action "click" then [("success", .jbool true)]
  else if jeqStr action "type" then [("success", .jbool true)]
  else if jeqStr action "swipe" then [("success", .jbool true)]
  else if jeqStr action "key" then [("success", .jbool true)]
  else [("success", .jbool false), ("error", .jstr ("Unknown action: " ++ pyStr action))]

/-! ## Lemmas: the escaping chains act character by character -/

theorem replaceChar_cons (c : Char) (r : List Char) (x : Char) (xs : List Char) :
    replaceChar c r (x :: xs) = (if x = c then r else [x]) ++ replaceChar c r xs := by
  by_cases h : x = c <;> simp [replaceChar, h]

theorem replaceChar_append (c : Char) (r a b : List Char) :
    replaceChar c r (a ++ b) = replaceChar c r a ++ replaceChar c r b := by
  induction a with
  | nil => simp [replaceChar]
  | cons x xs ih => by_cases h : x = c <;> simp [replaceChar, h, ih]

theorem escP_block (x : Char) :
    replaceChar '&' [bslash, '&'] (replaceChar dquote [bslash, dquote]
      (replaceChar squote [bslash, squote] (if x = ' ' then ['%', 's'] else [x]))) =
    escP x := by
  by_cases h1 : x = ' '
  · subst h1; decide
  · by_cases h2 : x = squote
    · subst h2; decide
    · by_cases h3 : x = dquote
      · subst h3; decide
      · by_cases h4 : x = '&'
        · subst h4; decide
        · simp [replaceChar, escP, h1, h2, h3, h4]

theorem escB_block (x : Char) :
    replaceChar dquote [bslash, dquote]
      (replaceChar squote [bslash, squote] (if x = ' ' then ['%', 's'] else [x])) =
    escB x := by
  by_cases h1 : x = ' '
  · subst h1; decide
  · by_cases h2 : x = squote
    · subst h2; decide
    · by_cases h3 : x = dquote
      · subst h3; decide
      · simp [replaceChar, escB, h1, h2, h3]

theorem providerEscape_cons (x : Char) (t : List Char) :
    providerEscape (x :: t) = escP x ++ providerEscape t := by
  unfold providerEscape
  rw [replaceChar_cons ' ' ['%', 's'] x t, replaceChar_append, replaceChar_append,
    replaceChar_append, escP_block]

theorem bridgeEscape_cons (x : Char) (t : List Char) :
    bridgeEscape (x :: t) = escB x ++ bridgeEscape t := by
  unfold bridgeEscape
  rw [replaceChar_cons ' ' ['%', 's'] x t, replaceChar_append, replaceChar_append,
    escB_block]

theorem providerEscape_eq_bind (t : List Char) : providerEscape t = t.flatMap escP := by
  induction t with
  | nil => rfl
  | cons x t ih => rw [providerEscape_cons, ih, List.flatMap_cons]

theorem bridgeEscape_eq_bind (t : List Char) : bridgeEscape t = t.flatMap escB := by
  induction t with
  | nil => rfl
  | cons x t ih => rw [bridgeEscape_cons, ih, List.flatMap_cons]

theorem space_not_mem_escP (x : Char) : ' ' ∉ escP x := by
  by_cases h1 : x = ' '
  · subst h1; decide
  · by_cases h2 : x = squote
    · subst h2; decide
    · by_cases h3 : x = dquote
      · subst h3; decide
      · by_cases h4 : x = '&'
        · subst h4; decide
        · simp [escP, h1, h2, h3, h4]
          exact fun h => h1 h.symm

theorem space_not_mem_escB (x : Char) : ' ' ∉ escB x := by
  by_cases h1 : x = ' '
  · subst h1; decide
  · by_cases h2 : x = squote
    · subst h2; decide
    · by_cases h3 : x = dquote
      · subst h3; decide
      · simp [escB, h1, h2, h3]
        exact fun h => h1 h.symm

theorem space_not_mem_bind_escP (t : List Char) : ' ' ∉ t.flatMap escP := by
  induction t with
  | nil => simp
  | cons x t ih =>
    rw [List.flatMap_cons]
    intro hmem
    rcases List.mem_append.mp hmem with h | h
    · exact space_not_mem_escP x h
    · exact ih h

theorem space_not_mem_bind_escB (t : List Char) : ' ' ∉ t.flatMap escB := by
  induction t with
  | nil => simp
  | cons x t ih =>
    rw [List.flatMap_cons]
    intro hmem
    rcases List.mem_append.mp hmem with h | h
    · exact space_not_mem_escB x h
    · exact ih h

theorem qef_bind_escP (t : List Char) :
    ∀ prev, quotesEscapedFrom prev (t.flatMap escP) = true := by
  induction t with
  | nil => intro prev; rfl
  | cons x t ih =>
    intro prev
    rw [List.flatMap_cons]
    by_cases h1 : x = ' '
    · subst h1
      have hb : escP ' ' = ['%', 's'] := by decide
      rw [hb]
      have q1 : isQuoteChar '%' = false := by decide
      have q2 : isQuoteChar 's' = false := by decide
      simp [quotesEscapedFrom, q1, q2, ih 's']
    · by_cases h2 : x = squote
      · subst h2
        have hb : escP squote = [bslash, squote] := by decide
        rw [hb]
        have q1 : isQuoteChar bslash = false := by decide
        have q2 : (bslash == bslash) = true := by decide
        simp [quotesEscapedFrom, q1, q2, ih squote]
      · by_cases h3 : x = dquote
        · subst h3
          have hb : escP dquote = [bslash, dquote] := by decide
          rw [hb]
          have q1 : isQuoteChar bslash = false := by decide
          have q2 : (bslash == bslash) = true := by decide
          simp [quotesEscapedFrom, q1, q2, ih dquote]
        · by_cases h4 : x = '&'
          · subst h4
            have hb : escP '&' = [bslash, '&'] := by decide
            rw [hb]
            have q1 : isQuoteChar bslash = false := by decide
            have q2 : isQuoteChar '&' = false := by decide
            simp [quotesEscapedFrom, q1, q2, ih '&']
          · have hb : escP x = [x] := by simp [escP, h1, h2, h3, h4]
            rw [hb]
            have q1 : isQuoteChar x = false := by
              simp [isQuoteChar, beq_eq_false_iff_ne, h2, h3]
            simp [quotesEscapedFrom, q1, ih x]

theorem qef_bind_escB (t : List Char) :
    ∀ prev, quotesEscapedFrom prev (t.flatMap escB) = true := by
  induction t with
  | nil => intro prev; rfl
  | cons x t ih =>
    intro prev
    rw [List.flatMap_cons]
    by_cases h1 : x = ' '
    · subst h1
      have hb : escB ' ' = ['%', 's'] := by decide
      rw [hb]
      have q1 : isQuoteChar '%' = false := by decide
      have q2 : isQuoteChar 's' = false := by decide
      simp [quotesEscapedFrom, q1, q2, ih 's']
    · by_cases h2 : x = squote
      · subst h2
        have hb : escB squote = [bslash, squote] := by decide
        rw [hb]
        have q1 : isQuoteChar bslash = false := by decide
        have q2 : (bslash == bslash) = true := by decide
        simp [quotesEscapedFrom, q1, q2, ih squote]
      · by_cases h3 : x = dquote
        · subst h3
          have hb : escB dquote = [bslash, dquote] := by decide
          rw [hb]
          have q1 : isQuoteChar bslash = false := by decide
          have q2 : (bslash == bslash) = true := by decide
          simp [quotesEscapedFrom, q1, q2, ih dquote]
        · have hb : escB x = [x] := by simp [escB, h1, h2, h3]
          rw [hb]
          have q1 : isQuoteChar x = false := by
            simp [isQuoteChar, beq_eq_false_iff_ne, h2, h3]
          simp [quotesEscapedFrom, q1, ih x]

/-- C7: the type-text translation (both the provider's `type_text` and the
bridge's type branch) acts character by character: every space of the input
becomes the escape token `%s` (so no space remains in the translated command
argument), each single- or double-quote becomes backslash-quote (so no
unescaped quote character remains), and the translation is total — the text is
escaped, never rejected, whatever characters it contains. -/
theorem c7_type_text_escaping (t : List Char) :
    providerEscape t = t.flatMap escP ∧
    bridgeEscape t = t.flatMap escB ∧
    ' ' ∉ providerEscape t ∧
    ' ' ∉ bridgeEscape t ∧
    noUnescapedQuote (providerEscape t) = true ∧
    noUnescapedQuote (bridgeEscape t) = true := by
  refine ⟨providerEscape_eq_bind t, bridgeEscape_eq_bind t, ?_, ?_, ?_, ?_⟩
  · rw [providerEscape_eq_bind]; exact space_not_mem_bind_escP t
  · rw [bridgeEscape_eq_bind]; exact space_not_mem_bind_escB t
  · rw [noUnescapedQuote, providerEscape_eq_bind]; exact qef_bind_escP t ' '
  · rw [noUnescapedQuote, bridgeEscape_eq_bind]; exact qef_bind_escB t ' '

/-! ## Readiness polling scenarios -/

/-- The `adb devices` output header line. -/
def devicesHeader : String := "List of devices attached"

/-- One poll whose `adb devices` call exits 0 and lists a single emulator with
the given status token, together with the boot-flag probe result that would be
used if a device is found. -/
def mkPoll (status : String) (boot : AdbResult) : Poll :=
  { devices := .ok ⟨0, devicesHeader ++ "\n" ++ "emulator-5554\t" ++ status, ""⟩,
    boot := boot }

/-- C4: during readiness polling an `offline` or `unauthorized` transport
status is never a failure — the iteration just reports not-ready and the loop
moves to the next observation; once the single attached device reports status
`device`, the boot-completion flag is queried but the poll reports ready
whatever that flag's result `b3` is; in particular the observed status
sequence `[offline, offline, device]` ends ready, with no failure outcome (the
function has none other than the timeout `false`). -/
theorem c4_readiness_offline_then_device (b1 b2 b3 : AdbResult) :
    pollStep (mkPoll "offline" b1) = { ready := false, bootQueried := none } ∧
    pollStep (mkPoll "unauthorized" b2) = { ready := false, bootQueried := none } ∧
    pollStep (mkPoll "device" b3) = { ready := true, bootQueried := some b3 } ∧
    waitForAdbReady [mkPoll "offline" b1, mkPoll "offline" b2, mkPoll "device" b3] = true ∧
    (∀ (rest : List Poll) (b : AdbResult),
      waitForAdbReady (mkPoll "offline" b :: rest) = waitForAdbReady rest) ∧
    (∀ (rest : List Poll) (b : AdbResult),
      waitForAdbReady (mkPoll "unauthorized" b :: rest) = waitForAdbReady rest) :=
  ⟨rfl, rfl, rfl, rfl, fun _ _ => rfl, fun _ _ => rfl⟩

/-! ## C8: numeric parameters are not validated -/

/-- C8 counterexample: the claim says a negative numeric parameter is not
passed through to the shell; but `tap(-5, 10)` builds the device-shell command
with `str(-5)` injected verbatim, and the action is executed and even reported
successful when the output carries no error marker — there is no validation
path. -/
theorem c8_counterexample :
    tapArgs (-5) 10 = ["shell", "input", "tap", "-5", "10"] ∧
    provider_tap (fun _ => { returncode := 0, stdout := "", stderr := "" })
      "android-test" (-5) 10 = true :=
  ⟨by decide, by decide⟩

/-- C8 amended: `tap`, `swipe` and `key_event` perform no validation of their
numeric parameters: each value is `str()`-rendered and injected into the
device-shell command line whatever its sign; in particular negative values
are passed through. -/
theorem c8_amended_no_validation (x y k d : Int) (hx : x < 0) (hk : k < 0) :
    toString x ∈ tapArgs x y ∧
    toString x ∈ swipeArgs x y y x d ∧
    toString k ∈ keyEventArgs k := by
  refine ⟨?_, ?_, ?_⟩ <;> simp [tapArgs, swipeArgs, keyEventArgs]

theorem c8_amended_witness :
    toString (-5 : Int) ∈ tapArgs (-5) 10 ∧
    toString (-5 : Int) ∈ swipeArgs (-5) 10 10 (-5) 300 ∧
    toString (-7 : Int) ∈ keyEventArgs (-7) :=
  c8_amended_no_validation (-5) 10 (-7) 300 (by norm_num) (by norm_num)

/-! ## C10: a zero coordinate in params is treated as absent -/

/-- C10: in the bridge's click handling, coordinate presence in `params` is
tested by truthiness (`params.get("x") or ...`); a `params` entry with value
`0` is falsy, so the resolution falls back to the legacy top-level `x`/`y` or
`coordinate` fields exactly as if `params` carried no coordinate at all — a
tap at coordinate 0 cannot be expressed through the `params` mapping. -/
theorem c10_params_zero_falls_back (data : Obj) (po : Obj)
    (hx : jget? po "x" = some (JVal.jint 0))
    (hy : jget? po "y" = some (JVal.jint 0)) :
    resolveCoord data (.jobj po) "x" 0 = resolveCoord data (.jobj []) "x" 0 ∧
    resolveCoord data (.jobj po) "y" 1 = resolveCoord data (.jobj []) "y" 1 := by
  constructor
  · have h1 : jmethGet (.jobj po) "x" = .ok (.jint 0) := by
      simp [jmethGet, jget, hx]
    unfold resolveCoord
    rw [h1]
    rfl
  · have h1 : jmethGet (.jobj po) "y" = .ok (.jint 0) := by
      simp [jmethGet, jget, hy]
    unfold resolveCoord
    rw [h1]
    rfl

def dataLegacy : Obj := [("x", JVal.jint 7), ("y", JVal.jint 8)]

def paramsZero : Obj := [("x", JVal.jint 0), ("y", JVal.jint 0)]

theorem c10_witness :
    (resolveCoord dataLegacy (.jobj paramsZero) "x" 0 =
      resolveCoord dataLegacy (.jobj []) "x" 0) ∧
    (resolveCoord dataLegacy (.jobj paramsZero) "y" 1 =
      resolveCoord dataLegacy (.jobj []) "y" 1) ∧
    resolveCoord dataLegacy (.jobj paramsZero) "x" 0 = .ok (JVal.jint 7) ∧
    resolveCoord dataLegacy (.jobj paramsZero) "y" 1 = .ok (JVal.jint 8) :=
  ⟨(c10_params_zero_falls_back dataLegacy paramsZero rfl rfl).1,
   (c10_params_zero_falls_back dataLegacy paramsZero rfl rfl).2, rfl, rfl⟩

/-! ## C5 and C6 counterexamples -/

def unknownReq : Obj := [("action", JVal.jstr "frobnicate")]

/-- C5 counterexample: the claim says the Command Bridge Server answers an
unknown action identifier with the lenient acknowledgment
`\x7bsuccess: true, status: "ok"\x7d`; the host-side bridge variant
(`bridge_server.py`, cited by the claim) instead answers
`\x7bsuccess: false, error: "Unknown action: ..."\x7d`. -/
theorem c5_counterexample :
    bridgeServerRespond none unknownReq =
      [("success", JVal.jbool false), ("error", JVal.jstr "Unknown action: frobnicate")] := by
  simp [bridgeServerRespond, unknownReq, jget, jget?, jeqStr, pyStr]

def adbZeroError : BridgeAdb :=
  fun _ => .ok { returncode := 0, stdout := "Error: Injection failed", stderr := "" }

def clickReq : Obj := [("command", JVal.jstr "tap"), ("x", JVal.jint 100), ("y", JVal.jint 200)]

/-- C6 counterexample: the claim says every action reachable through the
bridge derives its success flag by scanning the textual output for error
markers, so that a zero-exit invocation embedding an error message is reported
as failure; but the in-container bridge's `execute_adb` sets
`success = (returncode == 0)`, so a tap whose adb call exits 0 with
`"Error: Injection failed"` in its output is reported as `success: true`. -/
theorem c6_counterexample :
    containsSub "Error" "Error: Injection failed" = true ∧
    jget? (handleMessage (.ok clickReq) adbZeroError) "success" = some (JVal.jbool true) :=
  ⟨by decide, rfl⟩

/-! ## Concrete environments used by the lifecycle scenarios -/

def cfgW : Cfg := { api_port := 8000, vnc_port := 6080, adb_port := 5555 }

/-- A fresh engine where creation succeeds but the device never becomes ready
within the budget (no polls left: timeout). -/
def envTimeout : Env where
  vms := fun _ => none
  free := fun _ => true
  dockerRun := fun _ => .ok "cid1234567890ab"
  dockerStart := fun _ => .ok ()
  containerReady := .ok ()
  polls := []
  installOk := true

/-- A fresh engine where `docker run` itself fails. -/
def envDockerFail : Env where
  vms := fun _ => none
  free := fun _ => true
  dockerRun := fun _ => .error "boom"
  dockerStart := fun _ => .ok ()
  containerReady := .ok ()
  polls := []
  installOk := true

/-! ## C2: the readiness timeout is swallowed, not reported -/

/-- C2 counterexample: the claim says a readiness timeout is reported to the
caller as a distinguished `TimedOut` error; but on an engine whose device
never becomes ready, `_wait_for_adb_ready` merely returns `False`,
`_setup_android_environment` discards that value and proceeds, and `run_vm`
returns a normal success dictionary with no error at all. -/
theorem c2_counterexample :
    waitForAdbReady envTimeout.polls = false ∧
    (run_vm envTimeout cfgW "dev1").1.vm.status = "running" ∧
    (run_vm envTimeout cfgW "dev1").1.vm.error = none ∧
    (run_vm envTimeout cfgW "dev1").1.setup =
      some { android_ready := true, adb_ready := false } := by
  refine ⟨rfl, ?_, ?_, ?_⟩ <;> rfl

/-- C2 amended: `_wait_for_adb_ready` signals a timeout only by returning
`False` after logging a warning; there is no distinguished `TimedOut` error
value, `_setup_android_environment` ignores the boolean, proceeds to
provisioning and marks the environment ready, and `run_vm` returns a normal
success result to its caller. -/
theorem c2_amended_timeout_swallowed (env : Env) (cfg : Cfg) (name cid : String)
    (h0 : env.vms name = none)
    (h1 : env.dockerRun (portMappings cfg env.free) = .ok cid)
    (h2 : env.containerReady = .ok ())
    (h3 : waitForAdbReady env.polls = false) :
    (run_vm env cfg name).1.vm.status = "running" ∧
    (run_vm env cfg name).1.vm.error = none ∧
    (run_vm env cfg name).1.setup = some { android_ready := true, adb_ready := false } := by
  refine ⟨?_, ?_, ?_⟩ <;>
    simp [run_vm, run_vm_try, get_vm, statusStr, h0, h1, h2, h3, updateVms,
      setupAndroidEnvironment]

theorem c2_amended_witness :
    (run_vm envTimeout cfgW "dev1").1.vm.status = "running" ∧
    (run_vm envTimeout cfgW "dev1").1.vm.error = none ∧
    (run_vm envTimeout cfgW "dev1").1.setup =
      some { android_ready := true, adb_ready := false } :=
  c2_amended_timeout_swallowed envTimeout cfgW "dev1" "cid1234567890ab" rfl rfl rfl rfl

/-! ## C9: run_vm catches every exception into the error dictionary -/

/-- C9: `run_vm` is total at its interface: whatever exception its body raises
(creation failure, restart failure, readiness/provisioning failure), the
`except` clause catches it and the call returns the dictionary
`\x7bname, status: "error", error: message, provider: "android"\x7d`, with the
message prefixed exactly as in the source f-string. -/
theorem c9_run_vm_never_raises (env : Env) (cfg : Cfg) (name msg : String) (envE : Env)
    (h : run_vm_try env cfg name = .error (msg, envE)) :
    run_vm env cfg name =
      ({ vm := { name := name, status := "error",
                 error := some ("Error running Android VM " ++ name ++ ": " ++ msg),
                 provider := some "android", container_id := none },
         plan := none, warnings := [], createdNew := false, registered := none,
         setup := none }, envE) := by
  unfold run_vm
  rw [h]
  rfl

theorem c9_witness :
    run_vm envDockerFail cfgW "dev1" =
      ({ vm := { name := "dev1", status := "error",
                 error := some "Error running Android VM dev1: Failed to start container: boom",
                 provider := some "android", container_id := none },
         plan := none, warnings := [], createdNew := false, registered := none,
         setup := none }, envDockerFail) :=
  c9_run_vm_never_raises envDockerFail cfgW "dev1" "Failed to start container: boom"
    envDockerFail rfl

/-! ## C1: port negotiation -/

/-- C1: with every optional host port (remote-display/web-VNC, device
transport/ADB, emulator console 5554, alternate VNC 5900) already occupied but
the control-channel port free, the negotiated bind plan is exactly the control
mapping, one warning is logged per skipped mapping, and `start` still
succeeds; with the control-channel port occupied, the control mapping is
nevertheless demanded (it is appended without any probe), the creation command
fails to bind, and `run_vm` returns the error result with no environment
created or registered. -/
theorem c1_port_negotiation (cfg : Cfg) (envA envB : Env) (name cid : String)
    (hA0 : envA.vms name = none)
    (hAvnc : envA.free cfg.vnc_port = false)
    (hAadb : envA.free cfg.adb_port = false)
    (hA5554 : envA.free 5554 = false)
    (hA5900 : envA.free 5900 = false)
    (hArun : envA.dockerRun (portMappings cfg envA.free) = .ok cid)
    (hAready : envA.containerReady = .ok ())
    (hB0 : envB.vms name = none)
    (hBapi : envB.free cfg.api_port = false)
    (hBrun : ∀ plan, (cfg.api_port, 8000) ∈ plan → ∃ msg, envB.dockerRun plan = .error msg) :
    portMappings cfg envA.free = [(cfg.api_port, 8000)] ∧
    portWarnings cfg envA.free =
      ["Port " ++ toString cfg.vnc_port ++ " in use, skipping VNC port mapping",
       "Port " ++ toString cfg.adb_port ++ " in use, skipping ADB port mapping",
       "Port 5554 in use, skipping emulator console port",
       "Port 5900 in use, skipping VNC port"] ∧
    (run_vm envA cfg name).1.vm.status = "running" ∧
    (run_vm envA cfg name).1.plan = some [(cfg.api_port, 8000)] ∧
    (cfg.api_port, 8000) ∈ portMappings cfg envB.free ∧
    (run_vm envB cfg name).1.vm.status = "error" ∧
    (run_vm envB cfg name).1.registered = none ∧
    (run_vm envB cfg name).1.createdNew = false ∧
    (run_vm envB cfg name).2.vms name = none := by
  have hplanA : portMappings cfg envA.free = [(cfg.api_port, 8000)] := by
    simp [portMappings, hAvnc, hAadb, hA5554, hA5900]
  have hmemB : (cfg.api_port, 8000) ∈ portMappings cfg envB.free := by
    unfold portMappings
    refine List.mem_append.mpr (Or.inl ?_)
    refine List.mem_append.mpr (Or.inl ?_)
    refine List.mem_append.mpr (Or.inr ?_)
    exact List.mem_singleton.mpr rfl
  obtain ⟨msg, hmsg⟩ := hBrun (portMappings cfg envB.free) hmemB
  rw [hplanA] at hArun
  refine ⟨hplanA, ?_, ?_, ?_, hmemB, ?_, ?_, ?_, ?_⟩
  · simp [portWarnings, hAvnc, hAadb, hA5554, hA5900]
  · simp [run_vm, run_vm_try, get_vm, statusStr, hA0, hplanA, hArun, hAready, updateVms,
      setupAndroidEnvironment]
  · simp [run_vm, run_vm_try, get_vm, statusStr, hA0, hplanA, hArun, hAready, updateVms,
      setupAndroidEnvironment]
  · simp [run_vm, run_vm_try, get_vm, statusStr, hB0, hmsg, errorVM]
  · simp [run_vm, run_vm_try, get_vm, statusStr, hB0, hmsg]
  · simp [run_vm, run_vm_try, get_vm, statusStr, hB0, hmsg]
  · simp [run_vm, run_vm_try, get_vm, statusStr, hB0, hmsg, hB0]

/-- The optional-ports-occupied creation scenario: only 8000 is free. -/
def envOptBusy : Env where
  vms := fun _ => none
  free := fun p => p == 8000
  dockerRun := fun _ => .ok "cid1234567890ab"
  dockerStart := fun _ => .ok ()
  containerReady := .ok ()
  polls := []
  installOk := true

/-- The control-port-occupied creation scenario: everything free except 8000,
and binding a plan that demands 8000 fails. -/
def envCtlBusy : Env where
  vms := fun _ => none
  free := fun p => p != 8000
  dockerRun := fun plan =>
    if (8000, 8000) ∈ plan then .error "bind: address already in use" else .ok "cid"
  dockerStart := fun _ => .ok ()
  containerReady := .ok ()
  polls := []
  installOk := true

theorem c1_witness :
    portMappings cfgW envOptBusy.free = [(8000, 8000)] ∧
    portWarnings cfgW envOptBusy.free =
      ["Port " ++ toString 6080 ++ " in use, skipping VNC port mapping",
       "Port " ++ toString 5555 ++ " in use, skipping ADB port mapping",
       "Port 5554 in use, skipping emulator console port",
       "Port 5900 in use, skipping VNC port"] ∧
    (run_vm envOptBusy cfgW "dev1").1.vm.status = "running" ∧
    (run_vm envOptBusy cfgW "dev1").1.plan = some [(8000, 8000)] ∧
    (8000, 8000) ∈ portMappings cfgW envCtlBusy.free ∧
    (run_vm envCtlBusy cfgW "dev1").1.vm.status = "error" ∧
    (run_vm envCtlBusy cfgW "dev1").1.registered = none ∧
    (run_vm envCtlBusy cfgW "dev1").1.createdNew = false ∧
    (run_vm envCtlBusy cfgW "dev1").2.vms "dev1" = none :=
  c1_port_negotiation cfgW envOptBusy envCtlBusy "dev1" "cid1234567890ab"
    rfl rfl rfl rfl rfl rfl rfl rfl rfl
    (fun plan hmem => ⟨"bind: address already in use", by
      have h8 : (8000, 8000) ∈ plan := hmem
      simp [envCtlBusy, h8]⟩)

/-! ## C3: starting an already-running or stopped environment -/

/-- C3: calling `start` again while the environment named `spec.name` is
already running reuses it: the second call leaves the engine untouched,
returns the running environment's info, performs no `docker run`, registers
nothing new, fast-paths straight to the bridge-provisioning setup step, and
repeating the call yields the identical outcome; while if the environment
exists but is stopped, it is restarted in place (`docker start`) rather than
recreated — again no creation and no new registration, ending running. -/
theorem c3_start_idempotent (cfg : Cfg) (envR envS : Env) (name : String)
    (hR : envR.vms name = some .running)
    (hS : envS.vms name = some .stopped)
    (hSstart : envS.dockerStart name = .ok ())
    (hSready : envS.containerReady = .ok ()) :
    (run_vm envR cfg name).2 = envR ∧
    (run_vm envR cfg name).1.vm = { name := name, status := "running" } ∧
    (run_vm envR cfg name).1.createdNew = false ∧
    (run_vm envR cfg name).1.registered = none ∧
    (run_vm envR cfg name).1.setup =
      some (setupAndroidEnvironment envR.polls envR.installOk) ∧
    run_vm (run_vm envR cfg name).2 cfg name = run_vm envR cfg name ∧
    (run_vm envS cfg name).1.createdNew = false ∧
    (run_vm envS cfg name).1.registered = none ∧
    (run_vm envS cfg name).1.vm.status = "running" ∧
    (run_vm envS cfg name).2.vms name = some .running := by
  have hRrun : run_vm envR cfg name =
      ({ vm := get_vm envR name,
         setup := some (setupAndroidEnvironment envR.polls envR.installOk) }, envR) := by
    simp [run_vm, run_vm_try, get_vm, statusStr, hR]
  refine ⟨?_, ?_, ?_, ?_, ?_, ?_, ?_, ?_, ?_, ?_⟩
  · rw [hRrun]
  · rw [hRrun]; simp [get_vm, statusStr, hR]
  · rw [hRrun]
  · rw [hRrun]
  · rw [hRrun]
  · rw [hRrun]; exact hRrun
  · simp [run_vm, run_vm_try, get_vm, statusStr, hS, hSstart, hSready, updateVms,
      setupAndroidEnvironment]
  · simp [run_vm, run_vm_try, get_vm, statusStr, hS, hSstart, hSready, updateVms,
      setupAndroidEnvironment]
  · simp [run_vm, run_vm_try, get_vm, statusStr, hS, hSstart, hSready, updateVms,
      setupAndroidEnvironment]
  · simp [run_vm, run_vm_try, get_vm, statusStr, hS, hSstart, hSready, updateVms,
      setupAndroidEnvironment]

def envRunning : Env where
  vms := fun n => if n = "dev1" then some .running else none
  free := fun _ => true
  dockerRun := fun _ => .ok "cid"
  dockerStart := fun _ => .ok ()
  containerReady := .ok ()
  polls := []
  installOk := true

def envStopped : Env where
  vms := fun n => if n = "dev1" then some .stopped else none
  free := fun _ => true
  dockerRun := fun _ => .ok "cid"
  dockerStart := fun _ => .ok ()
  containerReady := .ok ()
  polls := []
  installOk := true

theorem c3_witness :
    (run_vm envRunning cfgW "dev1").2 = envRunning ∧
    (run_vm envRunning cfgW "dev1").1.vm = { name := "dev1", status := "running" } ∧
    (run_vm envRunning cfgW "dev1").1.createdNew = false ∧
    (run_vm envRunning cfgW "dev1").1.registered = none ∧
    (run_vm envRunning cfgW "dev1").1.setup =
      some (setupAndroidEnvironment envRunning.polls envRunning.installOk) ∧
    run_vm (run_vm envRunning cfgW "dev1").2 cfgW "dev1" = run_vm envRunning cfgW "dev1" ∧
    (run_vm envStopped cfgW "dev1").1.createdNew = false ∧
    (run_vm envStopped cfgW "dev1").1.registered = none ∧
    (run_vm envStopped cfgW "dev1").1.vm.status = "running" ∧
    (run_vm envStopped cfgW "dev1").2.vms "dev1" = some .running :=
  c3_start_idempotent cfgW envRunning envStopped "dev1" (by simp [envRunning])
    (by simp [envStopped]) rfl rfl

/-! ## C5 amended: responses of the two bridge implementations -/

/-- C5 amended: the deployed in-container bridge (`android_bridge.py`,
`handle_message`) sends back exactly one structured result per decoded
request: an unknown action identifier yields the lenient acknowledgment
`\x7bsuccess: true, action, status: "ok"\x7d`, an undecodable message and any
internal error while handling are embedded as
`\x7bsuccess: false, error: str(e)\x7d` in a normal response instead of a
raised exception; the host-side variant (`bridge_server.py`) differs on
unknown actions, answering `\x7bsuccess: false, error: "Unknown action: ..."\x7d`
(see the counterexample). -/
theorem c5_amended_bridge_responses (data : Obj) (adb : BridgeAdb) (e : String) :
    (knownAction (resolveAction data) = false →
      handleMessage (.ok data) adb =
        [("success", JVal.jbool true), ("action", resolveAction data),
         ("status", JVal.jstr "ok")]) ∧
    handleMessage (.error e) adb = [("success", JVal.jbool false), ("error", JVal.jstr e)] ∧
    (∀ e', handleBody data adb = .error e' →
      handleMessage (.ok data) adb =
        [("success", JVal.jbool false), ("error", JVal.jstr e')]) := by
  refine ⟨?_, rfl, ?_⟩
  · intro h
    simp only [knownAction, Bool.or_eq_false_iff] at h
    obtain ⟨⟨⟨⟨⟨⟨⟨⟨⟨⟨⟨h1, h2⟩, h3⟩, h4⟩, h5⟩, h6⟩, h7⟩, h8⟩, h9⟩, h10⟩, h11⟩, h12⟩ := h
    have hb : handleBody data adb =
        .ok [("success", JVal.jbool true), ("action", resolveAction data),
             ("status", JVal.jstr "ok")] := by
      unfold handleBody
      simp [h1, h2, h3, h4, h5, h6, h7, h8, h9, h10, h11, h12]
      rfl
    simp [handleMessage, hb]
  · intro e' he
    simp [handleMessage, he, errObj]

def adbOkEmpty : BridgeAdb := fun _ => .ok { returncode := 0, stdout := "", stderr := "" }

def unknownCmdReq : Obj := [("command", JVal.jstr "frobnicate")]

def badTypeReq : Obj := [("command", JVal.jstr "type"), ("text", JVal.jint 5)]

theorem c5_amended_witness :
    handleMessage (.ok unknownCmdReq) adbOkEmpty =
      [("success", JVal.jbool true), ("action", JVal.jstr "frobnicate"),
       ("status", JVal.jstr "ok")] ∧
    handleMessage (.error "boom") adbOkEmpty =
      [("success", JVal.jbool false), ("error", JVal.jstr "boom")] ∧
    handleMessage (.ok badTypeReq) adbOkEmpty =
      [("success", JVal.jbool false), ("error", JVal.jstr "AttributeError: replace")] :=
  ⟨(c5_amended_bridge_responses unknownCmdReq adbOkEmpty "boom").1 rfl,
   (c5_amended_bridge_responses unknownCmdReq adbOkEmpty "boom").2.1,
   (c5_amended_bridge_responses badTypeReq adbOkEmpty "x").2.2 "AttributeError: replace" rfl⟩

/-! ## C6 amended: how success flags are derived on each surface -/

/-- C6 amended: on the provider's direct execution surface, success is derived
by scanning the captured textual output for the `"Error"` marker and never
from the exit code — two executions with the same stdout get the same result
whatever their exit codes, and an execution whose output carries the marker is
reported as a failure even when it exits zero; the bridge path, by contrast,
derives success from the exit code alone — two adb results with equal exit
codes give the bridge's click action the same success flag whatever their
outputs (see the counterexample for a zero-exit embedded-error tap reported
successful there). -/
theorem c6_amended_marker_scan (o o' : DockerExec) (cn : String) (x y : Int)
    (r r' : AdbResult)
    (h1 : (o (["docker", "exec", cn, "adb"] ++ homeArgs)).stdout =
          (o' (["docker", "exec", cn, "adb"] ++ homeArgs)).stdout)
    (h2 : containsSub "Error" (execute_adb_command o cn homeArgs) = true)
    (h3 : containsSub "Error" (execute_adb_command o cn (tapArgs x y)) = true)
    (h4 : r.returncode = r'.returncode) :
    provider_home o cn = provider_home o' cn ∧
    provider_home o cn = false ∧
    provider_tap o cn x y = false ∧
    jget? (handleMessage (.ok clickReq) (fun _ => .ok r)) "success" =
      jget? (handleMessage (.ok clickReq) (fun _ => .ok r')) "success" := by
  refine ⟨?_, ?_, ?_, ?_⟩
  · unfold provider_home execute_adb_command containsSub
    rw [h1]
  · unfold provider_home
    rw [h2]
    rfl
  · unfold provider_tap
    rw [h3]
    rfl
  · have hL : jget? (handleMessage (.ok clickReq) (fun _ => .ok r)) "success" =
        some (JVal.jbool (r.returncode == 0)) := rfl
    have hR : jget? (handleMessage (.ok clickReq) (fun _ => .ok r')) "success" =
        some (JVal.jbool (r'.returncode == 0)) := rfl
    rw [hL, hR, h4]

def oZeroWithError : DockerExec :=
  fun _ => { returncode := 0, stdout := "Error: x", stderr := "" }

def oOneWithError : DockerExec :=
  fun _ => { returncode := 1, stdout := "Error: x", stderr := "" }

def rZeroErrText : AdbResult := { returncode := 0, stdout := "Error: y", stderr := "" }

def rZeroClean : AdbResult := { returncode := 0, stdout := "fine", stderr := "" }

theorem c6_amended_witness :
    provider_home oZeroWithError "android-test" = provider_home oOneWithError "android-test" ∧
    provider_home oZeroWithError "android-test" = false ∧
    provider_tap oZeroWithError "android-test" 100 200 = false ∧
    jget? (handleMessage (.ok clickReq) (fun _ => .ok rZeroErrText)) "success" =
      jget? (handleMessage (.ok clickReq) (fun _ => .ok rZeroClean)) "success" :=
  c6_amended_marker_scan oZeroWithError oOneWithError "android-test" 100 200
    rZeroErrText rZeroClean rfl (by decide) (by decide) rfl
